import Mathlib

/-
  Shallow embedding of compiler-rt/lib/rtsan/rtsan_context.cpp
  (LLVM RealtimeSanitizer runtime core): the per-thread execution
  Context, the Context Registry, and the violation Detector
  `ExpectNotRealtime`.
-/

namespace Rtsan

/-- Per-thread execution context of the RealtimeSanitizer runtime
(`__rtsan::Context`).  The field declarations live in rtsan_context.h,
which is not under src/; modelled from the spec: `realtime_depth` and
`bypass_depth` are plain integer counters, unconditionally incremented
and decremented with no bounds checking (so they can go negative). -/
structure Context where
  realtime_depth_ : Int
  bypass_depth_ : Int
deriving Repr, DecidableEq

/-- Modelled from the spec: `__rtsan::Context::Context() = default`
default-constructs a context that is in no real-time region and not
bypassed, i.e. both counters start at zero (spec: for a freshly created
context `InRealtimeContext()` and `IsBypassed()` are false). -/
def Context.init : Context := { realtime_depth_ := 0, bypass_depth_ := 0 }

/-- `void __rtsan::Context::RealtimePush() { realtime_depth_++; }` -/
def Context.RealtimePush (c : Context) : Context :=
  { c with realtime_depth_ := c.realtime_depth_ + 1 }

/-- `void __rtsan::Context::RealtimePop() { realtime_depth_--; }` -/
def Context.RealtimePop (c : Context) : Context :=
  { c with realtime_depth_ := c.realtime_depth_ - 1 }

/-- `void __rtsan::Context::BypassPush() { bypass_depth_++; }` -/
def Context.BypassPush (c : Context) : Context :=
  { c with bypass_depth_ := c.bypass_depth_ + 1 }

/-- `void __rtsan::Context::BypassPop() { bypass_depth_--; }` -/
def Context.BypassPop (c : Context) : Context :=
  { c with bypass_depth_ := c.bypass_depth_ - 1 }

/-- `bool __rtsan::Context::InRealtimeContext() const { return realtime_depth_ > 0; }` -/
def Context.InRealtimeContext (c : Context) : Bool := c.realtime_depth_ > 0

/-- `bool __rtsan::Context::IsBypassed() const { return bypass_depth_ > 0; }` -/
def Context.IsBypassed (c : Context) : Bool := c.bypass_depth_ > 0

/-- One violation report, as emitted by `__rtsan::PrintDiagnostics`:
the fixed error banner line and the line naming the intercepted
function.  The cosmetic color-decorator strings (external
`SanitizerCommonDecorator`) and the symbolized stack trace (external
`__rtsan::PrintStackTrace`) are collaborators outside this core and are
not modelled. -/
structure Diagnostics where
  banner : String
  message : String
deriving Repr, DecidableEq

/-- `void __rtsan::PrintDiagnostics(const char *intercepted_function_name, uptr pc, uptr bp)`:
emits `Report("ERROR: RealtimeSanitizer: unsafe-library-call\n")` followed by
`Printf("Intercepted call to real-time unsafe function `%s` in real-time context!\n", name)`. -/
def PrintDiagnostics (intercepted_function_name : String) : Diagnostics :=
  { banner := "ERROR: RealtimeSanitizer: unsafe-library-call\n"
    message := "Intercepted call to real-time unsafe function `" ++
      intercepted_function_name ++ "` in real-time context!\n" }

/-- The action policy invoked after a report.  The source file documents
the future choices (exit / continue / wait for user input) in the
comment above `InvokeViolationDetectedAction`; in the current code only
the exit mode exists.  `cont` models the documented hypothetical
continue policy. -/
inductive ActionPolicy
  | exit
  | cont
deriving Repr, DecidableEq

/-- `static void InvokeViolationDetectedAction() { Die(); }` — the
current fixed policy terminates the process. -/
def currentPolicy : ActionPolicy := ActionPolicy.exit

/-- How a call to `ExpectNotRealtime` ends: control returns to the
caller, the process dies via `Die()`, or the `CHECK` macro fails
fatally. -/
inductive Termination
  | returned
  | died
  | checkFailed
deriving Repr, DecidableEq

/-- Observable steps performed on the violation path of
`ExpectNotRealtime`, in execution order. -/
inductive Step
  | bypassPush
  | report (d : Diagnostics)
  | actionInvoked
  | bypassPop
deriving Repr, DecidableEq

/-- Result of a call to `ExpectNotRealtime`: how it terminated, the
context state at that moment, and the ordered trace of steps taken on
the violation path. -/
structure ExpectResult where
  term : Termination
  ctx : Context
  trace : List Step
deriving Repr, DecidableEq

/-- `void __rtsan::ExpectNotRealtime(Context &context, const char *intercepted_function_name)`,
parametrised by the action policy so that the documented hypothetical
continue policy can also be examined.  `rtsanInit` models the external
query `__rtsan_is_initialized()` (declared in rtsan.h, not under src/):
`CHECK(__rtsan_is_initialized())` fails fatally when it is false.
The source body is:
```
CHECK(__rtsan_is_initialized());
if (context.InRealtimeContext() && !context.IsBypassed()) \x7b
  context.BypassPush();
  GET_CALLER_PC_BP;
  PrintDiagnostics(intercepted_function_name, pc, bp);
  InvokeViolationDetectedAction();
  context.BypassPop();
\x7d
```
Under the exit policy `Die()` does not return, so `BypassPop` is never
executed; under the continue policy it is. -/
def ExpectNotRealtimeWith (policy : ActionPolicy) (rtsanInit : Bool)
    (context : Context) (intercepted_function_name : String) : ExpectResult :=
  if rtsanInit = false then
    { term := Termination.checkFailed, ctx := context, trace := [] }
  else if context.InRealtimeContext && !context.IsBypassed then
    let c1 := context.BypassPush
    let d := PrintDiagnostics intercepted_function_name
    match policy with
    | ActionPolicy.exit =>
        { term := Termination.died, ctx := c1,
          trace := [Step.bypassPush, Step.report d, Step.actionInvoked] }
    | ActionPolicy.cont =>
        { term := Termination.returned, ctx := c1.BypassPop,
          trace := [Step.bypassPush, Step.report d, Step.actionInvoked,
                    Step.bypassPop] }
  else
    { term := Termination.returned, ctx := context, trace := [] }

/-- `__rtsan::ExpectNotRealtime` as compiled: the fixed current policy
(`InvokeViolationDetectedAction` = `Die()`). -/
def ExpectNotRealtime (rtsanInit : Bool) (context : Context)
    (intercepted_function_name : String) : ExpectResult :=
  ExpectNotRealtimeWith currentPolicy rtsanInit context intercepted_function_name

/-- The registry state visible to one thread: whether the process-wide
`pthread_once(&key_once, make_thread_local_context_key)` has run,
this thread's `pthread_getspecific(context_key)` slot (the stored
pointer, as an abstract address), the next address the external
`InternalAlloc` will hand out, and the set of live allocations. -/
structure ThreadRegistry where
  key_once_done : Bool
  slot : Option Nat
  next_alloc : Nat
  heap : List (Nat × Context)
deriving Repr, DecidableEq

/-- Result of `GetContextForThisThreadImpl`: the address of the context
returned by reference, the registry state afterwards, and whether this
call performed an `InternalAlloc`. -/
structure LookupResult where
  addr : Nat
  state : ThreadRegistry
  allocated : Bool
deriving Repr, DecidableEq

/-- `static __rtsan::Context &GetContextForThisThreadImpl()`:
run the once-guarded key creation, read `pthread_getspecific`; if the
slot is null, `InternalAlloc` a new `Context`, placement-new
default-construct it, and `pthread_setspecific` the pointer; otherwise
return the previously stored pointer unchanged. -/
def GetContextForThisThreadImpl (s : ThreadRegistry) : LookupResult :=
  let s0 := { s with key_once_done := true }
  match s0.slot with
  | some a => { addr := a, state := s0, allocated := false }
  | none =>
      let a := s0.next_alloc
      { addr := a
        state := { s0 with
          slot := some a
          next_alloc := a + 1
          heap := (a, Context.init) :: s0.heap }
        allocated := true }

/-- `__rtsan::Context &__rtsan::GetContextForThisThread() { return GetContextForThisThreadImpl(); }` -/
def GetContextForThisThread (s : ThreadRegistry) : LookupResult :=
  GetContextForThisThreadImpl s

/-- Modelled from the spec: the state of the process-wide one-time
guard (`pthread_once` on `key_once`, an external primitive not under
src/), following the spec design note: an atomic state machine
uninitialized → one thread running the setup body → ready. -/
inductive OnceState
  | notStarted
  | running (t : Nat)
  | done
deriving Repr, DecidableEq

/-- Modelled from the spec: process-wide state of the racing one-time
setup — the guard state, whether the setup body (`pthread_key_create`
with the per-thread finalizer) has taken effect, how many times the
setup body has executed, and which threads have returned from the
guard and proceeded. -/
structure OnceProc where
  once : OnceState
  keyCreated : Bool
  bodyRuns : Nat
  passed : List Nat
deriving Repr, DecidableEq

/-- Modelled from the spec: one scheduler step giving thread `t` a turn
at the one-time guard.  If the guard is untouched, `t` atomically claims
it; if another thread holds it, `t` blocks (no state change); if `t`
itself holds it, `t` finishes executing the setup body exactly here;
once the guard is ready, `t` passes through without running the body. -/
def onceStep (s : OnceProc) (t : Nat) : OnceProc :=
  match s.once with
  | OnceState.notStarted => { s with once := OnceState.running t }
  | OnceState.running u =>
      if u = t then
        { s with once := OnceState.done, keyCreated := true,
                 bodyRuns := s.bodyRuns + 1 }
      else s
  | OnceState.done => { s with passed := t :: s.passed }

/-- Modelled from the spec: run an arbitrary interleaving `sched`
(the sequence of thread ids chosen by the scheduler) from the pristine
process state. -/
def onceRun (sched : List Nat) : OnceProc :=
  sched.foldl onceStep
    { once := OnceState.notStarted, keyCreated := false,
      bodyRuns := 0, passed := [] }

/-- Recogniser for the report step of a detector trace. -/
def isReport (s : Step) : Bool :=
  match s with
  | Step.report _ => true
  | _ => false

/-- Invariant of the one-time-guard machine: before the guard is ready
the setup body has never run, the key does not exist and no thread has
passed the guard; once ready, the body has run exactly once and the key
exists. -/
def onceInv (s : OnceProc) : Prop :=
  match s.once with
  | OnceState.done => s.bodyRuns = 1 ∧ s.keyCreated = true
  | _ => s.bodyRuns = 0 ∧ s.keyCreated = false ∧ s.passed = []

theorem onceStep_inv (s : OnceProc) (t : Nat) (h : onceInv s) :
    onceInv (onceStep s t) := by
  cases hs : s.once with
  | notStarted =>
      simp [onceInv, hs] at h
      simp [onceStep, onceInv, hs, h]
  | running u =>
      simp [onceInv, hs] at h
      by_cases ht : u = t
      · simp [onceStep, onceInv, hs, ht, h]
      · simp [onceStep, onceInv, hs, ht, h]
  | done =>
      simp [onceInv, hs] at h
      simp [onceStep, onceInv, hs, h]

theorem onceRun_inv_from (sched : List Nat) (s : OnceProc) (h : onceInv s) :
    onceInv (sched.foldl onceStep s) := by
  induction sched generalizing s with
  | nil => exact h
  | cons t ts ih => exact ih (onceStep s t) (onceStep_inv s t h)

theorem realtimePush_iter (n : Nat) (c : Context) :
    Context.RealtimePush^[n] c =
      { c with realtime_depth_ := c.realtime_depth_ + n } := by
  induction n generalizing c with
  | zero => simp
  | succ n ih =>
      rw [Function.iterate_succ_apply, ih]
      simp [Context.RealtimePush, Context.mk.injEq]
      omega

theorem realtimePop_iter (n : Nat) (c : Context) :
    Context.RealtimePop^[n] c =
      { c with realtime_depth_ := c.realtime_depth_ - n } := by
  induction n generalizing c with
  | zero => simp
  | succ n ih =>
      rw [Function.iterate_succ_apply, ih]
      simp [Context.RealtimePop, Context.mk.injEq]
      omega

theorem bypassPush_iter (n : Nat) (c : Context) :
    Context.BypassPush^[n] c =
      { c with bypass_depth_ := c.bypass_depth_ + n } := by
  induction n generalizing c with
  | zero => simp
  | succ n ih =>
      rw [Function.iterate_succ_apply, ih]
      simp [Context.BypassPush, Context.mk.injEq]
      omega

theorem bypassPop_iter (n : Nat) (c : Context) :
    Context.BypassPop^[n] c =
      { c with bypass_depth_ := c.bypass_depth_ - n } := by
  induction n generalizing c with
  | zero => simp
  | succ n ih =>
      rw [Function.iterate_succ_apply, ih]
      simp [Context.BypassPop, Context.mk.injEq]
      omega

/-- C1: with global initialization complete, `ExpectNotRealtime`
detects a violation (reports and dies) if and only if
`InRealtimeContext()` is true and `IsBypassed()` is false at the moment
of the call; in every other case the call returns immediately with no
observable effect: the context is unchanged and no step of the
violation path is taken. -/
theorem C1_detection_iff (c : Context) (name : String) :
    ((ExpectNotRealtime true c name).term = Termination.died ↔
      (c.InRealtimeContext = true ∧ c.IsBypassed = false)) ∧
    (¬(c.InRealtimeContext = true ∧ c.IsBypassed = false) →
      ExpectNotRealtime true c name =
        { term := Termination.returned, ctx := c, trace := [] }) := by
  unfold ExpectNotRealtime ExpectNotRealtimeWith currentPolicy
  cases hr : c.InRealtimeContext <;> cases hb : c.IsBypassed <;>
    simp [hr, hb]

/-- C1 witness: on a freshly created context (not in a real-time
region) a call is a no-op. -/
theorem C1_detection_iff_w :
    ExpectNotRealtime true { realtime_depth_ := 0, bypass_depth_ := 0 } "malloc" =
      { term := Termination.returned,
        ctx := { realtime_depth_ := 0, bypass_depth_ := 0 }, trace := [] } :=
  (C1_detection_iff { realtime_depth_ := 0, bypass_depth_ := 0 } "malloc").2
    (by decide)

/-- C2: on the violation path the detector emits exactly one report —
whose banner names the violation kind unsafe-library-call and whose
message contains the intercepted function's name — then terminates the
process without returning control to the caller; the final `BypassPop`
is unreachable under the current action policy, so the bypass counter
is still raised at the moment of termination. -/
theorem C2_violation_report_and_die (c : Context) (name : String)
    (h1 : c.InRealtimeContext = true) (h2 : c.IsBypassed = false) :
    (ExpectNotRealtime true c name).trace =
      [Step.bypassPush, Step.report (PrintDiagnostics name),
        Step.actionInvoked] ∧
    ((ExpectNotRealtime true c name).trace.countP isReport) = 1 ∧
    (PrintDiagnostics name).banner =
      "ERROR: RealtimeSanitizer: unsafe-library-call\n" ∧
    (PrintDiagnostics name).message =
      "Intercepted call to real-time unsafe function `" ++ name ++
        "` in real-time context!\n" ∧
    (ExpectNotRealtime true c name).term = Termination.died ∧
    (ExpectNotRealtime true c name).term ≠ Termination.returned ∧
    Step.bypassPop ∉ (ExpectNotRealtime true c name).trace ∧
    (ExpectNotRealtime true c name).ctx = c.BypassPush := by
  have hres : ExpectNotRealtime true c name =
      { term := Termination.died, ctx := c.BypassPush,
        trace := [Step.bypassPush, Step.report (PrintDiagnostics name),
          Step.actionInvoked] } := by
    unfold ExpectNotRealtime ExpectNotRealtimeWith currentPolicy
    simp [h1, h2]
  refine ⟨by rw [hres], ?_, rfl, rfl, by rw [hres], by rw [hres]; simp,
    ?_, by rw [hres]⟩
  · rw [hres]
    simp [List.countP, List.countP.go, isReport]
  · rw [hres]
    simp

/-- C2 witness: at realtime depth 1 a call on `malloc` dies. -/
theorem C2_violation_report_and_die_w :
    (ExpectNotRealtime true { realtime_depth_ := 1, bypass_depth_ := 0 }
      "malloc").term = Termination.died :=
  (C2_violation_report_and_die
    { realtime_depth_ := 1, bypass_depth_ := 0 } "malloc"
    (by decide) (by decide)).2.2.2.2.1

/-- C3 counterexample: the claim fails on a context whose bypass
counter has gone negative through unmatched `BypassPop` calls (the
counters are unchecked).  At `realtime_depth = 1, bypass_depth = -1`
the violation path is taken, yet after `BypassPush` the context is
still not bypassed, and a nested call to the detector on that context
is not a no-op: it reports and dies again. -/
theorem C3_counterexample :
    (((⟨1, -1⟩ : Context).InRealtimeContext = true ∧
      (⟨1, -1⟩ : Context).IsBypassed = false) ∧
     ((⟨1, -1⟩ : Context).BypassPush).IsBypassed = false) ∧
    (ExpectNotRealtime true ((⟨1, -1⟩ : Context).BypassPush) "malloc").term =
      Termination.died := by
  refine ⟨by decide, ?_⟩
  rfl

/-- C3 (amended): on the violation path `BypassPush` is the first step
the detector performs, before any reporting step; provided the bypass
counter is nonnegative at the call (the balanced-usage discipline the
spec assumes of callers), `IsBypassed()` is then true on that context
for the duration of the reporting path, and any nested call to
`ExpectNotRealtime` on the same context is a no-op. -/
theorem C3_bypass_push_first (policy : ActionPolicy) (c : Context)
    (name nested_name : String)
    (h1 : c.InRealtimeContext = true) (h2 : c.IsBypassed = false)
    (h3 : 0 ≤ c.bypass_depth_) :
    (ExpectNotRealtimeWith policy true c name).trace.head? =
      some Step.bypassPush ∧
    (c.BypassPush).IsBypassed = true ∧
    ExpectNotRealtime true (c.BypassPush) nested_name =
      { term := Termination.returned, ctx := c.BypassPush, trace := [] } := by
  have hby : (c.BypassPush).IsBypassed = true := by
    simp [Context.BypassPush, Context.IsBypassed]
    omega
  refine ⟨?_, hby, ?_⟩
  · unfold ExpectNotRealtimeWith
    cases policy <;> simp [h1, h2]
  · unfold ExpectNotRealtime ExpectNotRealtimeWith currentPolicy
    simp [hby]

/-- C3 witness: a balanced context at realtime depth 1; the nested
call during reporting is a no-op. -/
theorem C3_bypass_push_first_w :
    ExpectNotRealtime true
      (({ realtime_depth_ := 1, bypass_depth_ := 0 } : Context).BypassPush)
      "free" =
      { term := Termination.returned,
        ctx := ({ realtime_depth_ := 1, bypass_depth_ := 0 } :
          Context).BypassPush,
        trace := [] } :=
  (C3_bypass_push_first ActionPolicy.exit
    { realtime_depth_ := 1, bypass_depth_ := 0 } "malloc" "free"
    (by decide) (by decide) (by decide)).2.2

/-- C4: `InRealtimeContext()` holds exactly when the realtime counter
is positive and `IsBypassed()` exactly when the bypass counter is
positive; two `RealtimePush` calls followed by one `RealtimePop` on a
fresh context leave `InRealtimeContext()` true at depth 1. -/
theorem C4_depth_predicates (c : Context) :
    (c.InRealtimeContext = true ↔ c.realtime_depth_ > 0) ∧
    (c.IsBypassed = true ↔ c.bypass_depth_ > 0) ∧
    ((Context.init.RealtimePush.RealtimePush).RealtimePop).InRealtimeContext =
      true ∧
    ((Context.init.RealtimePush.RealtimePush).RealtimePop).realtime_depth_ =
      1 := by
  refine ⟨?_, ?_, by decide, by decide⟩ <;>
    simp [Context.InRealtimeContext, Context.IsBypassed]

/-- C5: for every N, N `RealtimePush` calls followed by N `RealtimePop`
calls on a fresh context leave `InRealtimeContext()` false, and N
`BypassPush` calls followed by N `BypassPop` calls leave `IsBypassed()`
false. -/
theorem C5_balanced_pushes_pops (n : Nat) :
    (Context.RealtimePop^[n]
      (Context.RealtimePush^[n] Context.init)).InRealtimeContext = false ∧
    (Context.BypassPop^[n]
      (Context.BypassPush^[n] Context.init)).IsBypassed = false := by
  simp [realtimePush_iter, realtimePop_iter, bypassPush_iter, bypassPop_iter,
    Context.init, Context.InRealtimeContext, Context.IsBypassed]

/-- C6: every call to `ExpectNotRealtime` — whatever the context state,
including calls that would take the no-op fast path — fatally
check-fails before doing anything else when global initialization has
not completed; when initialization is complete the check never fires. -/
theorem C6_init_check (c : Context) (name : String) :
    ExpectNotRealtime false c name =
      { term := Termination.checkFailed, ctx := c, trace := [] } ∧
    (ExpectNotRealtime true c name).term ≠ Termination.checkFailed := by
  constructor
  · simp [ExpectNotRealtime, ExpectNotRealtimeWith]
  · unfold ExpectNotRealtime ExpectNotRealtimeWith currentPolicy
    cases hr : (c.InRealtimeContext && !c.IsBypassed) <;> simp [hr]

/-- C6 witness: evaluation of the check-failure path on the fresh
context. -/
theorem C6_init_check_w :
    ExpectNotRealtime false Context.init "malloc" =
      { term := Termination.checkFailed, ctx := Context.init,
        trace := [] } :=
  (C6_init_check Context.init "malloc").1

/-- C7: on a thread whose slot is empty, the first lookup allocates and
default-constructs exactly one `Context` (one new heap cell holding the
default-constructed context), associates its address with the thread,
and a subsequent lookup returns the same address with no new allocation
and no state change. -/
theorem C7_registry_lookup (s : ThreadRegistry) (h : s.slot = none) :
    (GetContextForThisThread s).allocated = true ∧
    (GetContextForThisThread s).state.slot =
      some (GetContextForThisThread s).addr ∧
    (GetContextForThisThread s).state.heap =
      ((GetContextForThisThread s).addr, Context.init) :: s.heap ∧
    GetContextForThisThread (GetContextForThisThread s).state =
      { addr := (GetContextForThisThread s).addr,
        state := (GetContextForThisThread s).state,
        allocated := false } := by
  simp [GetContextForThisThread, GetContextForThisThreadImpl, h]

/-- C7 witness: first and second lookup on a pristine thread state. -/
theorem C7_registry_lookup_w :
    GetContextForThisThread
      (GetContextForThisThread
        { key_once_done := false, slot := none, next_alloc := 0,
          heap := [] }).state =
      { addr := (GetContextForThisThread
          { key_once_done := false, slot := none, next_alloc := 0,
            heap := [] }).addr,
        state := (GetContextForThisThread
          { key_once_done := false, slot := none, next_alloc := 0,
            heap := [] }).state,
        allocated := false } :=
  (C7_registry_lookup
    { key_once_done := false, slot := none, next_alloc := 0, heap := [] }
    rfl).2.2.2

/-- C8: in the one-time-guard machine, under every interleaving of
thread steps the setup body executes at most once; any thread that has
passed the guard only did so after the body executed exactly once and
the key exists; and a thread that finds another thread running the
setup body blocks, changing nothing. -/
theorem C8_once_guard (sched : List Nat) (t : Nat)
    (h : t ∈ (onceRun sched).passed) :
    (onceRun sched).bodyRuns = 1 ∧
    (onceRun sched).keyCreated = true ∧
    (∀ sched2 : List Nat, (onceRun sched2).bodyRuns ≤ 1) ∧
    (∀ s : OnceProc, ∀ u v : Nat,
      s.once = OnceState.running u → v ≠ u → onceStep s v = s) := by
  have key : ∀ sc : List Nat, onceInv (onceRun sc) := by
    intro sc
    exact onceRun_inv_from sc _ (by simp [onceInv])
  have hinv := key sched
  have hdone : (onceRun sched).once = OnceState.done := by
    cases hs : (onceRun sched).once with
    | done => rfl
    | notStarted =>
        simp [onceInv, hs] at hinv
        rw [hinv.2.2] at h
        simp at h
    | running u =>
        simp [onceInv, hs] at hinv
        rw [hinv.2.2] at h
        simp at h
  simp [onceInv, hdone] at hinv
  refine ⟨hinv.1, hinv.2, ?_, ?_⟩
  · intro sched2
    have h2 := key sched2
    cases hs : (onceRun sched2).once <;> simp [onceInv, hs] at h2 <;>
      omega
  · intro s u v h1 h2
    simp [onceStep, h1, Ne.symm h2]

/-- C8 witness: thread 0 claims the guard, thread 1 blocks, thread 0
finishes the body, thread 1 then passes: the body ran exactly once. -/
theorem C8_once_guard_w :
    (onceRun [0, 1, 0, 1]).bodyRuns = 1 ∧
    (onceRun [0, 1, 0, 1]).keyCreated = true :=
  ⟨(C8_once_guard [0, 1, 0, 1] 1 (by decide)).1,
   (C8_once_guard [0, 1, 0, 1] 1 (by decide)).2.1⟩

/-- C9: whenever a call to `ExpectNotRealtime` returns control to its
caller — on the fast path under any policy, or on the violation path
under the hypothetical continue policy — the context on return is
exactly the context on entry: no net change to either counter. -/
theorem C9_frame_on_return (policy : ActionPolicy) (b : Bool) (c : Context)
    (name : String)
    (h : (ExpectNotRealtimeWith policy b c name).term = Termination.returned) :
    (ExpectNotRealtimeWith policy b c name).ctx = c := by
  cases b with
  | false => simp [ExpectNotRealtimeWith] at h
  | true =>
      cases hr : (c.InRealtimeContext && !c.IsBypassed) with
      | false =>
          unfold ExpectNotRealtimeWith
          simp [hr]
      | true =>
          cases policy with
          | exit =>
              unfold ExpectNotRealtimeWith at h
              simp [hr] at h
          | cont =>
              unfold ExpectNotRealtimeWith
              simp [hr, Context.BypassPush, Context.BypassPop]

/-- C9 witness: violation path under the continue policy restores the
entry context. -/
theorem C9_frame_on_return_w :
    (ExpectNotRealtimeWith ActionPolicy.cont true
      { realtime_depth_ := 1, bypass_depth_ := 0 } "malloc").ctx =
      { realtime_depth_ := 1, bypass_depth_ := 0 } :=
  C9_frame_on_return ActionPolicy.cont true
    { realtime_depth_ := 1, bypass_depth_ := 0 } "malloc" rfl

/-- C10: on a context whose realtime counter is 0, an unmatched
`RealtimePop` takes the counter to -1 rather than failing, and a
subsequent `RealtimePush` only restores it to 0, leaving
`InRealtimeContext()` false; analogously for the bypass counter. -/
theorem C10_unmatched_pop (c : Context) :
    (c.realtime_depth_ = 0 →
      (c.RealtimePop).realtime_depth_ = -1 ∧
      ((c.RealtimePop).RealtimePush).InRealtimeContext = false) ∧
    (c.bypass_depth_ = 0 →
      (c.BypassPop).bypass_depth_ = -1 ∧
      ((c.BypassPop).BypassPush).IsBypassed = false) := by
  constructor <;> intro h <;>
    simp [Context.RealtimePop, Context.RealtimePush, Context.BypassPop,
      Context.BypassPush, Context.InRealtimeContext, Context.IsBypassed, h]

/-- C10 witness: pop-then-push on the fresh context. -/
theorem C10_unmatched_pop_w :
    ((({ realtime_depth_ := 0, bypass_depth_ := 0 } :
        Context).RealtimePop).RealtimePush).InRealtimeContext = false ∧
    ((({ realtime_depth_ := 0, bypass_depth_ := 0 } :
        Context).BypassPop).BypassPush).IsBypassed = false :=
  ⟨((C10_unmatched_pop
      { realtime_depth_ := 0, bypass_depth_ := 0 }).1 rfl).2,
   ((C10_unmatched_pop
      { realtime_depth_ := 0, bypass_depth_ := 0 }).2 rfl).2⟩

end Rtsan
